import Mathlib

/-!
Shallow embedding of `src/sqlalchemy_command_helper/command_helper.py`
(the only source module of the repository `sqlalchemy_commander`).

Modelling choices, stated once:

* Python attribute/dict values are modelled by the inductive `Value`
  (booleans, naturals, strings, UTC timestamps as naturals, `None`).
* A Python dict (an update payload) and a model object's attribute map are
  both association lists `List (String × Value)` with first-match lookup.
  Python dict assignment / `setattr` replace the first binding of the key in
  place (preserving its position) or append a fresh binding at the end —
  exactly the observable semantics of CPython dicts and object `__dict__`s.
* The heap of model records and the session's pending-write set are made
  explicit in a state `DB`: `store` is the heap (records addressed by
  index, standing for object identity) and `pending` is the ordered list of
  record indices passed to `session_obj.add`.
* The caller-supplied `find_func` is an abstract function receiving the
  state and the filter params and returning either an exception, an
  empty/falsy result (`Option.none`), or a reference (index) to a record of
  the store; `session_obj.add` is likewise abstract and may raise.  Python
  exception propagation (the source has no `try`/`except`) is modelled by
  `Except PyErr`: each operation returns the propagated error together with
  the heap/session state as mutated up to the raise point.
* `datetime.utcnow()` is modelled by an explicit parameter `now : Nat`
  captured at call time of the delete operations.
* The in-place mutation of the caller-owned `data` dict performed by
  `data.update({...})` in `delete_by_params` is made observable: the delete
  operations additionally return the final contents of the caller's dict
  variable (`Option.none` when no dict was passed).
-/

namespace CommandHelper

/-- A Python value as far as this module can observe it. -/
inductive Value where
  | bool (b : Bool)
  | nat (n : Nat)
  | str (s : String)
  | time (t : Nat)
  | null
deriving DecidableEq, Repr

/-- A Python exception as far as this module can observe it:
`orm_exc.NoResultFound` (raised by `update_by_params`) or an arbitrary
collaborator-originated exception carrying an opaque message. -/
inductive PyErr where
  | noResultFound
  | collab (msg : String)
deriving DecidableEq, Repr

/-- An update payload (a Python dict from field name to value). -/
abbrev Dict := List (String × Value)

/-- A model record's attribute map (a Python object's `__dict__`). -/
abbrev Rec := List (String × Value)

/-- One entry of a filter spec: a dict from field name to an
operator-expression dict, e.g. `{"id": {"$eq": 7}}`. -/
abbrev Param := List (String × List (String × Value))

/-- First-match lookup: Python `d[k]` / `getattr(obj, k)`; `Option.none`
models the key being absent. -/
def dictGet : List (String × Value) → String → Option Value
  | [], _ => Option.none
  | (k, v) :: rest, f => if k = f then some v else dictGet rest f

/-- Python `d[k] = v` / `setattr(obj, k, v)`: replace the first binding of
`k` in place, else append a fresh binding. -/
def setKey : List (String × Value) → String → Value → List (String × Value)
  | [], f, v => [(f, v)]
  | (k, w) :: rest, f, v =>
      if k = f then (f, v) :: rest else (k, w) :: setKey rest f v

/-- Python `d.update(kvs)`: assign each binding of `kvs` into `d` in order. -/
def dictUpdate (d : List (String × Value)) (kvs : List (String × Value)) :
    List (String × Value) :=
  kvs.foldl (fun acc kv => setKey acc kv.1 kv.2) d

/-- The field-assignment loop shared verbatim by `save` (lines 36-39) and
`update_by_params` (lines 102-104):
`for field in fields: if field in data: setattr(obj, field, data[field])`. -/
def applyFields : List String → Dict → Rec → Rec
  | [], _, r => r
  | f :: fs, data, r =>
      match dictGet data f with
      | some v => applyFields fs data (setKey r f v)
      | Option.none => applyFields fs data r

/-- The heap of model records (`store`, records addressed by index standing
for Python object identity) together with the session's pending-write set
(`pending`, the ordered record indices passed to `session_obj.add`). -/
structure DB where
  store : List Rec
  pending : List Nat
deriving DecidableEq, Repr

/-- The caller-supplied `find_func(session_obj, model_cls, params)`: given
the current state and a filter spec it either raises, returns an
empty/falsy result, or returns a reference to a record of the store.
(The `model_cls` argument is fixed per call site and may be closed over.) -/
def FindFn : Type :=
  (db : DB) → List Param → Except PyErr (Option (Fin db.store.length))

/-- The behaviour of `session_obj.add`: from the current pending set and
the index of the record being registered, either raise or produce the new
pending set. -/
def AddFn : Type := List Nat → Nat → Except PyErr (List Nat)

/-- The ordinary, non-raising behaviour of `session_obj.add`: append the
record to the pending-write set. -/
def sessionAdd : AddFn := fun p i => Except.ok (p ++ [i])

/-- `save(session_obj, model_cls, fields, data)` (lines 14-42):
`obj = model_cls()` allocates a fresh record holding the model type's
defaults (`modelDefault`), the whitelisted fields present in `data` are
set on it, and `session_obj.add(obj)` registers it.  Returns the Python
result (the new record, or the exception propagated from `add`) together
with the final state. -/
def save (add : AddFn) (db : DB) (modelDefault : Rec) (fields : List String)
    (data : Dict) : Except PyErr Rec × DB :=
  let obj := applyFields fields data modelDefault
  let store2 := db.store ++ [obj]
  match add db.pending db.store.length with
  | Except.error e => (Except.error e, { store := store2, pending := db.pending })
  | Except.ok p2 => (Except.ok obj, { store := store2, pending := p2 })

/-- `update_by_params(session_obj, model_cls, find_func, fields, params,
data)` (lines 73-107): call `find_func`; raise `NoResultFound` on an
empty/falsy result; otherwise set the whitelisted fields present in `data`
on the located record (mutating it on the heap) and register it with the
session.  Returns the Python result together with the final state as
mutated up to any raise point. -/
def update_by_params (find : FindFn) (add : AddFn) (db : DB)
    (fields : List String) (params : List Param) (data : Dict) :
    Except PyErr Rec × DB :=
  match find db params with
  | Except.error e => (Except.error e, db)
  | Except.ok Option.none => (Except.error PyErr.noResultFound, db)
  | Except.ok (some i) =>
      let found2 := applyFields fields data (db.store.get i)
      let store2 := db.store.set i.val found2
      match add db.pending i.val with
      | Except.error e => (Except.error e, { store := store2, pending := db.pending })
      | Except.ok p2 => (Except.ok found2, { store := store2, pending := p2 })

/-- The filter spec `[{"id": {"$eq": _id}}]` built by `update_by_id` and
`delete_by_id`. -/
def idParams (_id : Value) : List Param := [[("id", [("$eq", _id)])]]

/-- `update_by_id(session_obj, model_cls, find_func, fields, _id, data)`
(lines 45-71): delegate to `update_by_params` with the id filter spec. -/
def update_by_id (find : FindFn) (add : AddFn) (db : DB)
    (fields : List String) (_id : Value) (data : Dict) :
    Except PyErr Rec × DB :=
  update_by_params find add db fields (idParams _id) data

/-- The deletion payload `{"removed": True, "removed_at": datetime.utcnow()}`. -/
def removalPayload (now : Nat) : Dict :=
  [("removed", Value.bool true), ("removed_at", Value.time now)]

/-- The payload composition of `delete_by_params` (lines 160-163):
`if not data: data = {"removed": True, "removed_at": utcnow()}`
`else: data.update({"removed": True, "removed_at": utcnow()})`.
First component: the dict bound to the local name `data` afterwards (the
payload handed to `update_by_params`).  Second component: the final
contents of the caller-owned dict variable — `data.update` mutates the
caller's dict in place, while the `if not data` branch (taken for `None`
and for an empty dict, both falsy) rebinds the local name and leaves any
caller dict untouched. -/
def composeDeleteData (data : Option Dict) (now : Nat) : Dict × Option Dict :=
  match data with
  | Option.none => (removalPayload now, Option.none)
  | some d =>
      if d = [] then (removalPayload now, some d)
      else (dictUpdate d (removalPayload now), some (dictUpdate d (removalPayload now)))

/-- `delete_by_params(session_obj, model_cls, find_func, fields, params,
data=None)` (lines 137-166): compose the deletion payload and delegate to
`update_by_params`.  The extra component is the final contents of the
caller-owned `data` dict (see `composeDeleteData`). -/
def delete_by_params (find : FindFn) (add : AddFn) (db : DB)
    (fields : List String) (params : List Param) (data : Option Dict)
    (now : Nat) : (Except PyErr Rec × DB) × Option Dict :=
  let pd := composeDeleteData data now
  (update_by_params find add db fields params pd.1, pd.2)

/-- `delete_by_id(session_obj, model_cls, find_func, fields, _id,
data=None)` (lines 110-134): delegate to `delete_by_params` with the id
filter spec. -/
def delete_by_id (find : FindFn) (add : AddFn) (db : DB)
    (fields : List String) (_id : Value) (data : Option Dict) (now : Nat) :
    (Except PyErr Rec × DB) × Option Dict :=
  delete_by_params find add db fields (idParams _id) data now

/-- Looking up the key just set yields the assigned value. -/
theorem dictGet_setKey_same (d : List (String × Value)) (f : String) (v : Value) :
    dictGet (setKey d f v) f = some v := by
  induction d with
  | nil => simp [setKey, dictGet]
  | cons kv rest ih =>
      by_cases h : kv.1 = f
      · simp [setKey, h, dictGet]
      · simp [setKey, h, dictGet, ih]

/-- Assigning one key leaves every other key's lookup unchanged. -/
theorem dictGet_setKey_other (d : List (String × Value)) (f g : String)
    (v : Value) (h : g ≠ f) : dictGet (setKey d f v) g = dictGet d g := by
  have hfg : ¬f = g := fun he => h he.symm
  induction d with
  | nil => simp [setKey, dictGet, hfg]
  | cons kv rest ih =>
      by_cases hk : kv.1 = f
      · simp [setKey, hk, dictGet, hfg]
      · simp only [setKey, hk, if_false, dictGet, ih]

/-- A field the payload lacks is never assigned by the field loop. -/
theorem applyFields_get_nodata (fields : List String) (data : Dict) (r : Rec)
    (f : String) (h : dictGet data f = Option.none) :
    dictGet (applyFields fields data r) f = dictGet r f := by
  induction fields generalizing r with
  | nil => rfl
  | cons g fs ih =>
      unfold applyFields
      cases hg : dictGet data g with
      | none => exact ih r
      | some v =>
          have hne : f ≠ g := fun he => by rw [he, hg] at h; cases h
          rw [ih (setKey r g v), dictGet_setKey_other r g f v hne]

/-- A field outside the whitelist is never assigned by the field loop. -/
theorem applyFields_get_notmem (fields : List String) (data : Dict) (r : Rec)
    (f : String) (hf : f ∉ fields) :
    dictGet (applyFields fields data r) f = dictGet r f := by
  induction fields generalizing r with
  | nil => rfl
  | cons g fs ih =>
      have hne : f ≠ g := fun he => hf (he ▸ List.mem_cons_self g fs)
      have hm : f ∉ fs := fun hh => hf (List.mem_cons_of_mem g hh)
      unfold applyFields
      cases hg : dictGet data g with
      | none => exact ih r hm
      | some v => rw [ih (setKey r g v) hm, dictGet_setKey_other r g f v hne]

/-- A whitelisted field present in the payload ends up holding the
payload's value. -/
theorem applyFields_get_mem (fields : List String) (data : Dict) (r : Rec)
    (f : String) (v : Value) (hf : f ∈ fields) (h : dictGet data f = some v) :
    dictGet (applyFields fields data r) f = some v := by
  induction fields generalizing r with
  | nil => cases hf
  | cons g fs ih =>
      unfold applyFields
      by_cases he : f = g
      · subst he
        rw [h]
        by_cases hm : f ∈ fs
        · exact ih (setKey r f v) hm
        · rw [applyFields_get_notmem fs data (setKey r f v) f hm,
            dictGet_setKey_same]
      · have hm : f ∈ fs := by
          cases hf with
          | head => exact absurd rfl he
          | tail _ hh => exact hh
        cases hg : dictGet data g with
        | none => exact ih r hm
        | some w => exact ih (setKey r g w) hm

/-- When no whitelisted field occurs in the payload the field loop is the
identity on the record. -/
theorem applyFields_id (fields : List String) (data : Dict) (r : Rec)
    (h : ∀ f ∈ fields, dictGet data f = Option.none) :
    applyFields fields data r = r := by
  induction fields with
  | nil => rfl
  | cons g fs ih =>
      unfold applyFields
      rw [h g (List.mem_cons_self g fs)]
      exact ih fun f hf => h f (List.mem_cons_of_mem g hf)

/-- Writing back the element already stored at an index is the identity. -/
theorem setGetSelf : ∀ {α : Type} (l : List α) (i : Fin l.length),
    l.set i.val (l.get i) = l
  | _, a :: l, ⟨0, _⟩ => rfl
  | _, a :: l, ⟨n + 1, h⟩ => by
      simpa [List.set] using setGetSelf l ⟨n, Nat.lt_of_succ_lt_succ h⟩

/-- A find function that always reports an empty result. -/
def findNone : FindFn := fun _ _ => Except.ok Option.none

/-- A find function that locates the first record of the store, if any. -/
def findFirst : FindFn := fun db _ =>
  if h : 0 < db.store.length then Except.ok (some ⟨0, h⟩)
  else Except.ok Option.none

/-- A find function that raises a collaborator exception. -/
def findBoom : FindFn := fun _ _ => Except.error (PyErr.collab "db down")

/-- A session whose `add` raises a collaborator exception. -/
def addBoom : AddFn := fun _ _ => Except.error (PyErr.collab "flush failed")

/-- A one-record state used to instantiate the theorems below. -/
def db1 : DB :=
  { store := [[("id", Value.nat 7), ("name", Value.str "a"),
               ("removed", Value.bool false)]],
    pending := [] }

/-- The index of the single record of `db1`. -/
def idx0 : Fin db1.store.length := ⟨0, Nat.one_pos⟩

/-- C1: if the find function returns an empty/falsy result,
`update_by_params` (and hence `update_by_id`, `delete_by_params` and
`delete_by_id`) raises `NoResultFound`, and the state — every record's
fields and the session's pending-write set — is left exactly as it was: no
field of any record is mutated and no `session.add` call is made. -/
theorem claim_C1_empty_find_raises (find : FindFn) (add : AddFn) (db : DB)
    (fields : List String) (params : List Param) (data : Dict) (_id : Value)
    (ddata : Option Dict) (now : Nat)
    (hf : ∀ ps, find db ps = Except.ok Option.none) :
    update_by_params find add db fields params data
        = (Except.error PyErr.noResultFound, db)
      ∧ update_by_id find add db fields _id data
        = (Except.error PyErr.noResultFound, db)
      ∧ (delete_by_params find add db fields params ddata now).1
        = (Except.error PyErr.noResultFound, db)
      ∧ (delete_by_id find add db fields _id ddata now).1
        = (Except.error PyErr.noResultFound, db) := by
  refine ⟨?_, ?_, ?_, ?_⟩ <;>
    simp [update_by_params, update_by_id, delete_by_params, delete_by_id, hf]

/-- Witness for C1 at a concrete state, whitelist and payload. -/
theorem claim_C1_witness :
    (∀ ps, findNone db1 ps = Except.ok Option.none)
      ∧ update_by_params findNone sessionAdd db1 ["name"] []
          [("name", Value.str "b")]
        = (Except.error PyErr.noResultFound, db1)
      ∧ (delete_by_id findNone sessionAdd db1 ["removed"] (Value.nat 7)
          Option.none 5).1
        = (Except.error PyErr.noResultFound, db1) := by
  have h := claim_C1_empty_find_raises findNone sessionAdd db1 ["name"] []
    [("name", Value.str "b")] (Value.nat 7) Option.none 5 (fun ps => rfl)
  have h2 := claim_C1_empty_find_raises findNone sessionAdd db1 ["removed"]
    [] [] (Value.nat 7) Option.none 5 (fun ps => rfl)
  exact ⟨fun ps => rfl, h.1, h2.2.2.2⟩

/-- C2: `save` returns the newly instantiated record in which every
whitelisted field present in the payload holds the payload's value, every
whitelisted field absent from the payload keeps the model type's default,
the new record is registered with the session for saving, and `save`
raises no error of its own. -/
theorem claim_C2_save_spec (db : DB) (modelDefault : Rec)
    (fields : List String) (data : Dict) :
    save sessionAdd db modelDefault fields data
        = (Except.ok (applyFields fields data modelDefault),
           { store := db.store ++ [applyFields fields data modelDefault],
             pending := db.pending ++ [db.store.length] })
      ∧ (∀ f v, f ∈ fields → dictGet data f = some v →
          dictGet (applyFields fields data modelDefault) f = some v)
      ∧ (∀ f, dictGet data f = Option.none →
          dictGet (applyFields fields data modelDefault) f
            = dictGet modelDefault f) := by
  refine ⟨rfl, ?_, ?_⟩
  · exact fun f v hf hv => applyFields_get_mem fields data modelDefault f v hf hv
  · exact fun f hf => applyFields_get_nodata fields data modelDefault f hf

/-- Witness for C2: a whitelisted field present in the payload is set, a
whitelisted field absent from it keeps its default. -/
theorem claim_C2_witness :
    ("name" ∈ ["name", "age"]
        ∧ dictGet [("name", Value.str "bob")] "name" = some (Value.str "bob")
        ∧ dictGet [("name", Value.str "bob")] "age" = Option.none)
      ∧ dictGet (applyFields ["name", "age"] [("name", Value.str "bob")]
          [("name", Value.null), ("age", Value.nat 0)]) "name"
          = some (Value.str "bob")
      ∧ dictGet (applyFields ["name", "age"] [("name", Value.str "bob")]
          [("name", Value.null), ("age", Value.nat 0)]) "age"
          = dictGet [("name", Value.null), ("age", Value.nat 0)] "age" := by
  have h := claim_C2_save_spec { store := [], pending := [] }
    [("name", Value.null), ("age", Value.nat 0)] ["name", "age"]
    [("name", Value.str "bob")]
  refine ⟨⟨by simp, rfl, rfl⟩, ?_, ?_⟩
  · exact h.2.1 "name" (Value.str "bob") (by simp) rfl
  · exact h.2.2 "age" rfl

/-- C3: a field outside the whitelist is never set: `save` leaves it at
the model default's value and `update_by_params` leaves it unchanged on
the located record (whose final value on the heap is exactly the record
with only whitelisted fields overwritten). -/
theorem claim_C3_whitelist_frame (fields : List String) (data : Dict)
    (f : String) (hf : f ∉ fields) :
    (∀ db modelDefault,
        (save sessionAdd db modelDefault fields data).1
          = Except.ok (applyFields fields data modelDefault)
        ∧ dictGet (applyFields fields data modelDefault) f
          = dictGet modelDefault f)
      ∧ (∀ (find : FindFn) (db : DB) (params : List Param)
          (i : Fin db.store.length), find db params = Except.ok (some i) →
          update_by_params find sessionAdd db fields params data
            = (Except.ok (applyFields fields data (db.store.get i)),
               { store := db.store.set i.val
                   (applyFields fields data (db.store.get i)),
                 pending := db.pending ++ [i.val] })
          ∧ dictGet (applyFields fields data (db.store.get i)) f
            = dictGet (db.store.get i) f) := by
  constructor
  · intro db modelDefault
    exact ⟨rfl, applyFields_get_notmem fields data modelDefault f hf⟩
  · intro find db params i hfind
    refine ⟨?_, applyFields_get_notmem fields data (db.store.get i) f hf⟩
    simp [update_by_params, hfind, sessionAdd]

/-- Witness for C3: a payload key outside the whitelist is ignored both by
create and by update. -/
theorem claim_C3_witness :
    ("id" ∉ ["name"])
      ∧ dictGet (applyFields ["name"]
          [("name", Value.str "b"), ("id", Value.nat 9)]
          [("id", Value.nat 7)]) "id" = dictGet [("id", Value.nat 7)] "id"
      ∧ dictGet (applyFields ["name"]
          [("name", Value.str "b"), ("id", Value.nat 9)]
          (db1.store.get idx0)) "id" = dictGet (db1.store.get idx0) "id" := by
  have h := claim_C3_whitelist_frame ["name"]
    [("name", Value.str "b"), ("id", Value.nat 9)] "id" (by simp)
  exact ⟨by simp, (h.1 db1 [("id", Value.nat 7)]).2,
    (h.2 findFirst db1 [] idx0 rfl).2⟩

/-- C4: `delete_by_id` with no extra data composes exactly the payload
`{"removed": true, "removed_at": T}` with `T` the UTC timestamp captured
at call time, and delegates it to the update path with the id filter spec;
no caller dict exists to be mutated. -/
theorem claim_C4_delete_default_payload (find : FindFn) (add : AddFn)
    (db : DB) (fields : List String) (_id : Value) (now : Nat) :
    delete_by_id find add db fields _id Option.none now
        = (update_by_params find add db fields (idParams _id)
            (removalPayload now), Option.none)
      ∧ removalPayload now
        = [("removed", Value.bool true), ("removed_at", Value.time now)] :=
  ⟨rfl, rfl⟩

/-- C5: with non-empty caller-supplied extra data, `delete_by_params`
applies the payload obtained by assigning `removed := true` and
`removed_at := T` into the caller's dict — overwriting same-named caller
keys — while every other key of the extra data keeps its value. -/
theorem claim_C5_delete_extra_data (find : FindFn) (add : AddFn) (db : DB)
    (fields : List String) (params : List Param) (d : Dict) (now : Nat)
    (k : String) (hd : d ≠ []) (hk1 : k ≠ "removed")
    (hk2 : k ≠ "removed_at") :
    delete_by_params find add db fields params (some d) now
        = (update_by_params find add db fields params
            (dictUpdate d (removalPayload now)),
           some (dictUpdate d (removalPayload now)))
      ∧ dictGet (dictUpdate d (removalPayload now)) "removed"
          = some (Value.bool true)
      ∧ dictGet (dictUpdate d (removalPayload now)) "removed_at"
          = some (Value.time now)
      ∧ dictGet (dictUpdate d (removalPayload now)) k = dictGet d k := by
  have hre : ("removed" : String) ≠ "removed_at" := by decide
  have hudef : dictUpdate d (removalPayload now)
      = setKey (setKey d "removed" (Value.bool true)) "removed_at"
          (Value.time now) := rfl
  refine ⟨?_, ?_, ?_, ?_⟩
  · simp [delete_by_params, composeDeleteData, hd]
  · rw [hudef, dictGet_setKey_other _ _ _ _ hre, dictGet_setKey_same]
  · rw [hudef, dictGet_setKey_same]
  · rw [hudef, dictGet_setKey_other _ _ _ _ hk2,
      dictGet_setKey_other _ _ _ _ hk1]

/-- Witness for C5 at the spec's example: extra data
`{"removed": false, "note": "x"}` yields `removed = true` while the
caller's `note` is preserved. -/
theorem claim_C5_witness :
    ([("removed", Value.bool false), ("note", Value.str "x")] ≠ ([] : Dict)
        ∧ "note" ≠ "removed" ∧ "note" ≠ "removed_at")
      ∧ dictGet (dictUpdate
          [("removed", Value.bool false), ("note", Value.str "x")]
          (removalPayload 5)) "removed" = some (Value.bool true)
      ∧ dictGet (dictUpdate
          [("removed", Value.bool false), ("note", Value.str "x")]
          (removalPayload 5)) "note"
        = dictGet [("removed", Value.bool false), ("note", Value.str "x")]
            "note" := by
  have h := claim_C5_delete_extra_data findFirst sessionAdd db1
    ["removed", "removed_at", "note"] []
    [("removed", Value.bool false), ("note", Value.str "x")] 5 "note"
    (by simp) (by decide) (by decide)
  exact ⟨⟨by simp, by decide, by decide⟩, h.2.1, h.2.2.2⟩

/-- C6: `update_by_id` and `delete_by_id` are observationally equivalent
to the corresponding `_by_params` calls on the filter spec
`[{"id": {"$eq": id}}]`: same result, same error, same heap, session and
caller-dict effects. -/
theorem claim_C6_by_id_equivalence (find : FindFn) (add : AddFn) (db : DB)
    (fields : List String) (_id : Value) (data : Dict) (ddata : Option Dict)
    (now : Nat) :
    update_by_id find add db fields _id data
        = update_by_params find add db fields (idParams _id) data
      ∧ delete_by_id find add db fields _id ddata now
        = delete_by_params find add db fields (idParams _id) ddata now
      ∧ idParams _id = [[("id", [("$eq", _id)])]] :=
  ⟨rfl, rfl, rfl⟩

/-- C7: when the whitelist contains neither `"removed"` nor
`"removed_at"`, a delete on a located record succeeds — it returns the
record and registers it with the session — yet every field of every
record is left unchanged: soft deletion only takes effect when the
whitelist includes the removal fields. -/
theorem claim_C7_delete_without_removal_fields (find : FindFn) (db : DB)
    (fields : List String) (params : List Param) (i : Fin db.store.length)
    (now : Nat) (h1 : "removed" ∉ fields) (h2 : "removed_at" ∉ fields)
    (hfind : find db params = Except.ok (some i)) :
    delete_by_params find sessionAdd db fields params Option.none now
        = ((Except.ok (db.store.get i),
            { store := db.store, pending := db.pending ++ [i.val] }),
           Option.none) := by
  have hid : applyFields fields (removalPayload now) (db.store.get i)
      = db.store.get i := by
    apply applyFields_id
    intro f hf
    have hf1 : ¬("removed" = f) := fun he => h1 (by rw [he]; exact hf)
    have hf2 : ¬("removed_at" = f) := fun he => h2 (by rw [he]; exact hf)
    simp [removalPayload, dictGet, hf1, hf2]
  have hmain : update_by_params find sessionAdd db fields params
      (removalPayload now)
      = (Except.ok (db.store.get i),
         { store := db.store, pending := db.pending ++ [i.val] }) := by
    simp only [update_by_params, hfind, sessionAdd]
    rw [hid, setGetSelf db.store i]
  show (update_by_params find sessionAdd db fields params
    (removalPayload now), Option.none) = _
  rw [hmain]

/-- Witness for C7: deleting the record of `db1` under the whitelist
`["name"]` succeeds and leaves the store untouched. -/
theorem claim_C7_witness :
    ("removed" ∉ ["name"] ∧ "removed_at" ∉ ["name"]
        ∧ findFirst db1 [] = Except.ok (some idx0))
      ∧ delete_by_params findFirst sessionAdd db1 ["name"] [] Option.none 5
        = ((Except.ok (db1.store.get idx0),
            { store := db1.store, pending := db1.pending ++ [idx0.val] }),
           Option.none) :=
  ⟨⟨by decide, by decide, rfl⟩,
   claim_C7_delete_without_removal_fields findFirst db1 ["name"] [] idx0 5
     (by decide) (by decide) rfl⟩

/-- C8: a collaborator-originated failure — an exception of the find
function, or of `session.add` during update or create — propagates to the
caller as that exact error, unwrapped and untranslated. -/
theorem claim_C8_collaborator_errors (find : FindFn) (add : AddFn) (db : DB)
    (modelDefault : Rec) (fields : List String) (params : List Param)
    (data : Dict) (ddata : Option Dict) (now : Nat) (e : PyErr)
    (i : Fin db.store.length) :
    (find db params = Except.error e →
        update_by_params find add db fields params data
          = (Except.error e, db))
      ∧ (find db params = Except.error e →
          (delete_by_params find add db fields params ddata now).1
            = (Except.error e, db))
      ∧ (find db params = Except.ok (some i) →
          add db.pending i.val = Except.error e →
          update_by_params find add db fields params data
            = (Except.error e,
               { store := db.store.set i.val
                   (applyFields fields data (db.store.get i)),
                 pending := db.pending }))
      ∧ (add db.pending db.store.length = Except.error e →
          save add db modelDefault fields data
            = (Except.error e,
               { store := db.store ++ [applyFields fields data modelDefault],
                 pending := db.pending })) := by
  refine ⟨?_, ?_, ?_, ?_⟩
  · intro hfind
    simp [update_by_params, hfind]
  · intro hfind
    simp [delete_by_params, update_by_params, hfind]
  · intro hfind hadd
    simp [update_by_params, hfind, hadd]
  · intro hadd
    simp [save, hadd]

/-- Witness for C8: a raising find function and a raising session both
surface their own exception unchanged. -/
theorem claim_C8_witness :
    (findBoom db1 [] = Except.error (PyErr.collab "db down")
        ∧ findFirst db1 [] = Except.ok (some idx0)
        ∧ addBoom db1.pending idx0.val
          = Except.error (PyErr.collab "flush failed"))
      ∧ update_by_params findBoom sessionAdd db1 ["name"] []
          [("name", Value.str "b")]
        = (Except.error (PyErr.collab "db down"), db1)
      ∧ update_by_params findFirst addBoom db1 ["name"] []
          [("name", Value.str "b")]
        = (Except.error (PyErr.collab "flush failed"),
           { store := db1.store.set idx0.val
               (applyFields ["name"] [("name", Value.str "b")]
                 (db1.store.get idx0)),
             pending := db1.pending })
      ∧ save addBoom db1 [] ["name"] [("name", Value.str "b")]
        = (Except.error (PyErr.collab "flush failed"),
           { store := db1.store
               ++ [applyFields ["name"] [("name", Value.str "b")] []],
             pending := db1.pending }) := by
  have ha := claim_C8_collaborator_errors findBoom sessionAdd db1 []
    ["name"] [] [("name", Value.str "b")] Option.none 0
    (PyErr.collab "db down") idx0
  have hb := claim_C8_collaborator_errors findFirst addBoom db1 []
    ["name"] [] [("name", Value.str "b")] Option.none 0
    (PyErr.collab "flush failed") idx0
  exact ⟨⟨rfl, rfl, rfl⟩, ha.1 rfl, hb.2.2.1 rfl rfl, hb.2.2.2 rfl⟩

/-- C9: with a non-empty extra-data dict, delete mutates the caller-owned
dict in place: after the call the caller's dict itself carries
`removed = true` and `removed_at = T` for the call-time timestamp. -/
theorem claim_C9_caller_dict_mutated (find : FindFn) (add : AddFn) (db : DB)
    (fields : List String) (params : List Param) (_id : Value) (d : Dict)
    (now : Nat) (hd : d ≠ []) :
    (delete_by_params find add db fields params (some d) now).2
        = some (dictUpdate d (removalPayload now))
      ∧ (delete_by_id find add db fields _id (some d) now).2
        = some (dictUpdate d (removalPayload now))
      ∧ dictGet (dictUpdate d (removalPayload now)) "removed"
          = some (Value.bool true)
      ∧ dictGet (dictUpdate d (removalPayload now)) "removed_at"
          = some (Value.time now) := by
  have hre : ("removed" : String) ≠ "removed_at" := by decide
  have hudef : dictUpdate d (removalPayload now)
      = setKey (setKey d "removed" (Value.bool true)) "removed_at"
          (Value.time now) := rfl
  refine ⟨?_, ?_, ?_, ?_⟩
  · simp [delete_by_params, composeDeleteData, hd]
  · simp [delete_by_id, delete_by_params, composeDeleteData, hd]
  · rw [hudef, dictGet_setKey_other _ _ _ _ hre, dictGet_setKey_same]
  · rw [hudef, dictGet_setKey_same]

/-- Witness for C9: after a delete with extra data `{"note": "x"}`, the
caller's dict has become
`{"note": "x", "removed": true, "removed_at": 5}`. -/
theorem claim_C9_witness :
    ([("note", Value.str "x")] ≠ ([] : Dict))
      ∧ (delete_by_id findFirst sessionAdd db1 ["removed"] (Value.nat 7)
          (some [("note", Value.str "x")]) 5).2
        = some [("note", Value.str "x"), ("removed", Value.bool true),
                ("removed_at", Value.time 5)] := by
  have h := claim_C9_caller_dict_mutated findFirst sessionAdd db1
    ["removed"] [] (Value.nat 7) [("note", Value.str "x")] 5 (by simp)
  refine ⟨by simp, ?_⟩
  rw [h.2.1]
  rfl

/-- C10: an empty extra-data dict is falsy in the `if not data` test, so
delete behaves exactly as if no extra data were passed — the fresh removal
payload is used standalone — and the caller's empty dict is not mutated. -/
theorem claim_C10_empty_dict_like_none (find : FindFn) (add : AddFn)
    (db : DB) (fields : List String) (params : List Param) (_id : Value)
    (now : Nat) :
    (delete_by_params find add db fields params (some []) now).1
        = (delete_by_params find add db fields params Option.none now).1
      ∧ (delete_by_params find add db fields params (some []) now).1
        = update_by_params find add db fields params (removalPayload now)
      ∧ (delete_by_params find add db fields params (some []) now).2
        = some []
      ∧ (delete_by_id find add db fields _id (some []) now).1
        = (delete_by_id find add db fields _id Option.none now).1
      ∧ (delete_by_id find add db fields _id (some []) now).2 = some [] :=
  ⟨rfl, rfl, rfl, rfl, rfl⟩

end CommandHelper
